import Mathlib

/-!
Shallow embedding of the two Express controller modules of the repository
(`src/api/controllers/catController.ts`, `src/api/controllers/userController.ts`).

Each HTTP handler is modelled as a pure function from its request data
(validation results attached by upstream middleware, query/body/params fields,
session context in `res.locals`) and the behaviour of its single awaited
database call, to an `Outcome`: the list of database operations it issued, the
response body it wrote (if any), and the error it forwarded to `next` (if any).

External collaborators that are not part of the repository's source
(the `CustomError` class, `express-validator`, `bcryptjs`, the mongoose query
engine and the `rectangleBounds` helper) are modelled from the spec, each
marked `Modelled from the spec:` in its doc comment.
-/

/-- Modelled from the spec: the `CustomError` class (`src/classes/CustomError.ts`,
not in the provided sources) carries a message and a numeric status code.  A
plain JavaScript `Error` has no status, hence `Option Nat`. -/
structure JsError where
  message : String
  status : Option Nat
deriving Repr, DecidableEq

/-- `new CustomError(message, status)`: an error with a definite status code. -/
def CustomError (message : String) (status : Nat) : JsError :=
  ⟨message, some status⟩

/-- Modelled from the spec: one entry of `validationResult(req).array()`
(express-validator): a failing field `param` with its message `msg`. -/
structure ValidationError where
  msg : String
  param : String
deriving Repr, DecidableEq

/-- `errors.array().map((error) => msg + ': ' + param).join(', ')` —
the message-rendering expression every handler repeats. -/
def renderValidationErrors (es : List ValidationError) : String :=
  String.intercalate ", " (es.map (fun e => e.msg ++ ": " ++ e.param))

/-- The message builder of `userDeleteCurrent` only: its arrow function has a
block body with no `return`, so every element maps to `undefined`, which
`Array.prototype.join` renders as the empty string. -/
def renderValidationErrorsVoid (es : List ValidationError) : String :=
  String.intercalate ", " (es.map (fun _ => ""))

/-- The validation gate every handler (except the three without one) runs:
if `validationResult(req)` is non-empty, `throw new CustomError(messages, 400)`.
`none` means the gate passed. -/
def validationGate (errors : List ValidationError) : Option JsError :=
  if errors.isEmpty then none
  else some (CustomError (renderValidationErrors errors) 400)

/-- `next(new CustomError((error as Error).message, 500))` — the rewrite every
catch block applies to whatever was thrown (`userDeleteCurrent` excepted). -/
def catchWrap (e : JsError) : JsError :=
  ⟨e.message, some 500⟩

/-- A geographic point stored on a cat record (the repository's data uses
integer-valued coordinates in all claims; the geometry engine is external). -/
structure GeoPoint where
  lat : Int
  lng : Int
deriving Repr, DecidableEq

/-- A cat document as stored in the database. -/
structure CatRecord where
  _id : String
  cat_name : String
  weight : Int
  birthdate : String
  owner : String
  location : GeoPoint
  filename : String
deriving Repr, DecidableEq

/-- A user document as stored in the database. -/
structure UserRecord where
  _id : String
  user_name : String
  email : String
  password : String
  role : String
deriving Repr, DecidableEq

/-- A partial cat body (`req.body` of the cat routes): absent fields are `none`. -/
structure CatBody where
  cat_name : Option String
  weight : Option Int
  birthdate : Option String
  owner : Option String
  location : Option GeoPoint
  filename : Option String
deriving Repr, DecidableEq

/-- `req.body` of `userPost` (typed `User` in the source): the declared fields,
plus whatever `role` the client chose to send. -/
structure UserBody where
  user_name : String
  email : String
  password : String
  role : Option String
deriving Repr, DecidableEq

/-- A partial user body (`req.body` of `userPutCurrent` / `userDeleteCurrent`). -/
structure UserUpdateBody where
  user_name : Option String
  email : Option String
  password : Option String
  role : Option String
deriving Repr, DecidableEq

/-- The payload `userPost` hands to `userModel.create` (the database assigns
the `_id`). -/
structure NewUser where
  user_name : String
  email : String
  password : String
  role : String
deriving Repr, DecidableEq

/-- The `{_id, user_name, email}` projection of a user. -/
structure UserView where
  _id : String
  user_name : String
  email : String
deriving Repr, DecidableEq

/-- The `{user_name, email}` projection used by `populate('owner', 'user_name email')`. -/
structure OwnerView where
  user_name : String
  email : String
deriving Repr, DecidableEq

/-- The `{message, data}` envelope of the mutating handlers. -/
structure MsgData (α : Type) where
  message : String
  data : α
deriving Repr, DecidableEq

/-- A JavaScript number that may be `NaN` (`none`): `parseInt` yields `NaN`
on inputs without a leading digit. -/
abbrev JsNum := Option Int

/-- A coordinate pair handed to `rectangleBounds` (components may be `NaN`). -/
structure JCoord where
  lat : JsNum
  lng : JsNum
deriving Repr, DecidableEq

/-- One database operation, with the payload the handler passed to it. -/
inductive DbOp where
  | catFindByOwner (owner : String)
  | catFindGeo (poly : List JCoord)
  | catFindById (id : String)
  | catFindAll
  | catCreate (body : CatBody)
  | catUpdate (id : String) (body : CatBody)
  | catDelete (id : String)
  | userFindById (id : String)
  | userFindAll
  | userCreate (u : NewUser)
  | userUpdate (id : String) (body : UserUpdateBody)
  | userDelete (id : String)
deriving Repr, DecidableEq

/-- Behaviour of a handler's awaited mongoose query: it resolves normally
(result computed from the database contents), resolves to `null`/`undefined`
(the case the handlers' `if (!result)` checks guard), or rejects with an
error (caught by the handler's catch block). -/
inductive CallMode where
  | normal
  | nullRes
  | throws (e : JsError)
deriving Repr, DecidableEq

/-- Behaviour of a `create` call (never resolves to `null`). -/
inductive CreateMode where
  | normal
  | throws (e : JsError)
deriving Repr, DecidableEq

/-- What a handler did: the database operations it issued, the response body
it wrote with `res.json` (if any), and the error it forwarded to `next`
(if any).  `userListGet` can set both `response` and `forwarded`. -/
structure Outcome (ρ : Type) where
  dbOps : List DbOp
  response : Option ρ
  forwarded : Option JsError
deriving Repr, DecidableEq

/-- `catModel.findById(id)` / `findByIdAndUpdate` / `findByIdAndDelete` target
resolution: mongoose returns the matching document or `null`. -/
def findCat (db : List CatRecord) (id : String) : Option CatRecord :=
  db.find? (fun c => c._id == id)

/-- `userModel.findById`-style resolution. -/
def findUser (db : List UserRecord) (id : String) : Option UserRecord :=
  db.find? (fun u => u._id == id)

/-- Modelled from the spec: mongoose `findByIdAndUpdate(id, body, {new: true})`
applies the fields present in the body over the stored document and returns
the updated document. -/
def applyCatUpdate (c : CatRecord) (b : CatBody) : CatRecord :=
  ⟨c._id, b.cat_name.getD c.cat_name, b.weight.getD c.weight,
   b.birthdate.getD c.birthdate, b.owner.getD c.owner,
   b.location.getD c.location, b.filename.getD c.filename⟩

/-- Modelled from the spec: mongoose `findByIdAndUpdate` on a user document —
the fields present in the body overwrite the stored ones, verbatim. -/
def applyUserUpdate (u : UserRecord) (b : UserUpdateBody) : UserRecord :=
  ⟨u._id, b.user_name.getD u.user_name, b.email.getD u.email,
   b.password.getD u.password, b.role.getD u.role⟩

/-- `populate('owner')`: resolve the owner reference against the user collection. -/
def populateOwner (users : List UserRecord) (c : CatRecord) : Option UserRecord :=
  users.find? (fun u => u._id == c.owner)

/-- `select('_id user_name email')` / the `{_id, user_name, email}` projection. -/
def userView (u : UserRecord) : UserView :=
  ⟨u._id, u.user_name, u.email⟩

/-- `populate('owner', 'user_name email')` projection of the resolved owner. -/
def ownerView (u : UserRecord) : OwnerView :=
  ⟨u.user_name, u.email⟩

/-! ### External runtime functions (modelled) -/

/-- Decimal value of a list of digit characters. -/
def digitsVal (cs : List Char) : Nat :=
  cs.foldl (fun a c => 10 * a + (c.toNat - 48)) 0

/-- Modelled from the spec: JavaScript `parseInt` in base 10 — skip leading
spaces, read an optional sign and the leading run of decimal digits, discard
anything after them (so fractional precision is discarded); `NaN` (`none`)
when no digit is found. -/
def parseIntJS (s : String) : Option Int :=
  let cs := s.data.dropWhile (fun c => c == ' ')
  match cs with
  | '-' :: t =>
    let ds := t.takeWhile (fun c => c.isDigit)
    if ds.isEmpty then none else some (-(digitsVal ds : Int))
  | '+' :: t =>
    let ds := t.takeWhile (fun c => c.isDigit)
    if ds.isEmpty then none else some (digitsVal ds : Int)
  | t =>
    let ds := t.takeWhile (fun c => c.isDigit)
    if ds.isEmpty then none else some (digitsVal ds : Int)

/-- Modelled from the spec: `src/utils/rectangleBounds.ts` (not in the provided
sources) — given two opposite corners, return a closed polygon covering the
axis-aligned rectangle they define: the four corners in consistent winding
order, the first vertex repeated at the end. -/
def rectangleBounds (topRight bottomLeft : JCoord) : List JCoord :=
  [⟨bottomLeft.lat, bottomLeft.lng⟩,
   ⟨bottomLeft.lat, topRight.lng⟩,
   ⟨topRight.lat, topRight.lng⟩,
   ⟨topRight.lat, bottomLeft.lng⟩,
   ⟨bottomLeft.lat, bottomLeft.lng⟩]

/-- JavaScript `≤` on possibly-`NaN` numbers: any comparison with `NaN` is false. -/
def jsLe (a b : JsNum) : Bool :=
  match a, b with
  | some x, some y => decide (x ≤ y)
  | _, _ => false

/-- Minimum propagating `NaN`. -/
def jsMin (a b : JsNum) : JsNum :=
  match a, b with
  | some x, some y => some (min x y)
  | _, _ => none

/-- Maximum propagating `NaN`. -/
def jsMax (a b : JsNum) : JsNum :=
  match a, b with
  | some x, some y => some (max x y)
  | _, _ => none

/-- Modelled from the spec: the database's `$geoWithin`/`$geometry` test for the
polygons produced by `rectangleBounds` — such a polygon is an axis-aligned
rectangle, so a point lies within it iff each of its coordinates lies between
the least and greatest vertex coordinates.  A polygon with a `NaN` vertex
matches nothing. -/
def geoWithinPoly (poly : List JCoord) (p : GeoPoint) : Bool :=
  match poly with
  | [] => false
  | c :: cs =>
    let mnLat := cs.foldl (fun a v => jsMin a v.lat) c.lat
    let mxLat := cs.foldl (fun a v => jsMax a v.lat) c.lat
    let mnLng := cs.foldl (fun a v => jsMin a v.lng) c.lng
    let mxLng := cs.foldl (fun a v => jsMax a v.lng) c.lng
    jsLe mnLat (some p.lat) && jsLe (some p.lat) mxLat &&
    jsLe mnLng (some p.lng) && jsLe (some p.lng) mxLng

/-- Modelled from the spec: JavaScript `String.prototype.split(',')` —
split on every comma, keeping empty segments. -/
def splitCommaAux : List Char → List Char → List String
  | [], acc => [String.mk acc.reverse]
  | c :: cs, acc =>
    if c = ',' then String.mk acc.reverse :: splitCommaAux cs []
    else splitCommaAux cs (c :: acc)

/-- `s.split(',')`. -/
def splitComma (s : String) : List String :=
  splitCommaAux s.data []

/-- Lines 53–60 of `catController.ts`: split the two query strings on `','`,
take the first two components of each (`undefined`, hence `NaN`, when absent),
`parseInt` each component, and call `rectangleBounds` — note the source passes
the first corner as `{lng: parseInt(topRightLat), lat: parseInt(topRightLng)}`
(components swapped) and the second as `{lat: ..., lng: ...}`. -/
def bboxQueryPoly (topRight bottomLeft : String) : List JCoord :=
  let trParts := splitComma topRight
  let blParts := splitComma bottomLeft
  let topRightLat := trParts.get? 0
  let topRightLng := trParts.get? 1
  let bottomLeftLat := blParts.get? 0
  let bottomLeftLng := blParts.get? 1
  rectangleBounds
    {lng := topRightLat.bind parseIntJS, lat := topRightLng.bind parseIntJS}
    {lat := bottomLeftLat.bind parseIntJS, lng := bottomLeftLng.bind parseIntJS}

/-- Modelled from the spec: `bcrypt.genSaltSync(12)` — a salt string embedding
the cost factor; the randomness is made explicit as a `seed` argument. -/
def genSaltSync (cost : Nat) (seed : String) : String :=
  "$2a$" ++ toString cost ++ "$" ++ seed

/-- Modelled from the spec: `bcrypt.hashSync(password, salt)` — a salted hash:
an encoding embedding the salt, different from the password, that the
library's check verifies against the password. -/
def hashSync (password salt : String) : String :=
  salt ++ "$" ++ password

/-- Modelled from the spec: `bcrypt.compareSync(password, stored)` — the
hashing function's check: does `stored` hash-encode `password`? -/
def compareSync (password stored : String) : Bool :=
  ("$" ++ password).data.isSuffixOf stored.data

/-! ### Cat handlers (`src/api/controllers/catController.ts`)

Each model takes the validation results attached to the request by upstream
middleware (`errors`), the request/session data the handler reads, the cat
collection (`db`, and the user collection where `populate` is used), and the
behaviour of the awaited database call (`CallMode`/`CreateMode`). -/

/-- `catGetByUser` (lines 10–35): validation gate, then
`catModel.find({owner: res.locals.user._id})`; `null` result → 404
`'No cats found'`; otherwise respond with the list.  Anything thrown in the
`try` is forwarded as `CustomError(message, 500)`. -/
def catGetByUser (errors : List ValidationError) (callerId : String)
    (db : List CatRecord) (mode : CallMode) : Outcome (List CatRecord) :=
  match validationGate errors with
  | some e => ⟨[], none, some (catchWrap e)⟩
  | none =>
    match mode with
    | .throws e => ⟨[.catFindByOwner callerId], none, some (catchWrap e)⟩
    | .nullRes => ⟨[.catFindByOwner callerId], none, some (CustomError "No cats found" 404)⟩
    | .normal =>
      ⟨[.catFindByOwner callerId],
       some (db.filter (fun c => c.owner == callerId)), none⟩

/-- `catGetByBoundingBox` (lines 38–78): validation gate, then split/parse the
two corner strings, build the polygon with `rectangleBounds`, and run
`catModel.find({location: {$geoWithin: {$geometry: rectBounds}}})`. -/
def catGetByBoundingBox (errors : List ValidationError)
    (topRight bottomLeft : String) (db : List CatRecord) (mode : CallMode) :
    Outcome (List CatRecord) :=
  match validationGate errors with
  | some e => ⟨[], none, some (catchWrap e)⟩
  | none =>
    let poly := bboxQueryPoly topRight bottomLeft
    match mode with
    | .throws e => ⟨[.catFindGeo poly], none, some (catchWrap e)⟩
    | .nullRes => ⟨[.catFindGeo poly], none, some (CustomError "No cats found" 404)⟩
    | .normal =>
      ⟨[.catFindGeo poly],
       some (db.filter (fun c => geoWithinPoly poly c.location)), none⟩

/-- `catPutAdmin` (lines 81–113): validation gate, then — only when
`res.locals.user.role === 'admin'` — `findByIdAndUpdate(req.params.id,
req.body, {new: true})`; when the role test fails the function simply ends:
no response, no error, no database call. -/
def catPutAdmin (errors : List ValidationError) (role : String) (id : String)
    (body : CatBody) (db : List CatRecord) (mode : CallMode) :
    Outcome (MsgData CatRecord) :=
  match validationGate errors with
  | some e => ⟨[], none, some (catchWrap e)⟩
  | none =>
    if role = "admin" then
      match mode with
      | .throws e => ⟨[.catUpdate id body], none, some (catchWrap e)⟩
      | .nullRes => ⟨[.catUpdate id body], none, some (CustomError "Cat not found" 404)⟩
      | .normal =>
        match findCat db id with
        | none => ⟨[.catUpdate id body], none, some (CustomError "Cat not found" 404)⟩
        | some c =>
          ⟨[.catUpdate id body], some ⟨"Cat updated", applyCatUpdate c body⟩, none⟩
    else ⟨[], none, none⟩

/-- `catDeleteAdmin` (lines 115–146): validation gate, then — only for role
`'admin'` — `findByIdAndDelete(req.params.id).populate('owner')`; same silent
fall-through for non-admins. -/
def catDeleteAdmin (errors : List ValidationError) (role : String) (id : String)
    (db : List CatRecord) (users : List UserRecord) (mode : CallMode) :
    Outcome (MsgData (CatRecord × Option UserRecord)) :=
  match validationGate errors with
  | some e => ⟨[], none, some (catchWrap e)⟩
  | none =>
    if role = "admin" then
      match mode with
      | .throws e => ⟨[.catDelete id], none, some (catchWrap e)⟩
      | .nullRes => ⟨[.catDelete id], none, some (CustomError "No cat found" 404)⟩
      | .normal =>
        match findCat db id with
        | none => ⟨[.catDelete id], none, some (CustomError "No cat found" 404)⟩
        | some c =>
          ⟨[.catDelete id], some ⟨"Cat deleted", (c, populateOwner users c)⟩, none⟩
    else ⟨[], none, none⟩

/-- `catDelete` (lines 148–171): validation gate, then
`findByIdAndDelete(req.params.id)`; `null` → 404 `'No cat found'`. -/
def catDelete (errors : List ValidationError) (id : String)
    (db : List CatRecord) (mode : CallMode) : Outcome (MsgData CatRecord) :=
  match validationGate errors with
  | some e => ⟨[], none, some (catchWrap e)⟩
  | none =>
    match mode with
    | .throws e => ⟨[.catDelete id], none, some (catchWrap e)⟩
    | .nullRes => ⟨[.catDelete id], none, some (CustomError "No cat found" 404)⟩
    | .normal =>
      match findCat db id with
      | none => ⟨[.catDelete id], none, some (CustomError "No cat found" 404)⟩
      | some c => ⟨[.catDelete id], some ⟨"Cat deleted", c⟩, none⟩

/-- `catPut` (lines 173–202): validation gate, then
`findByIdAndUpdate(req.params.id, req.body, {new: true})`;
`null` → 404 `'Cat not found'`. -/
def catPut (errors : List ValidationError) (id : String) (body : CatBody)
    (db : List CatRecord) (mode : CallMode) : Outcome (MsgData CatRecord) :=
  match validationGate errors with
  | some e => ⟨[], none, some (catchWrap e)⟩
  | none =>
    match mode with
    | .throws e => ⟨[.catUpdate id body], none, some (catchWrap e)⟩
    | .nullRes => ⟨[.catUpdate id body], none, some (CustomError "Cat not found" 404)⟩
    | .normal =>
      match findCat db id with
      | none => ⟨[.catUpdate id body], none, some (CustomError "Cat not found" 404)⟩
      | some c =>
        ⟨[.catUpdate id body], some ⟨"Cat updated", applyCatUpdate c body⟩, none⟩

/-- `catGet` (lines 204–225): validation gate, then
`findById(req.params.id).populate('owner', 'user_name email')`;
`null` → 404 `'No cat found'`. -/
def catGet (errors : List ValidationError) (id : String)
    (db : List CatRecord) (users : List UserRecord) (mode : CallMode) :
    Outcome (CatRecord × Option OwnerView) :=
  match validationGate errors with
  | some e => ⟨[], none, some (catchWrap e)⟩
  | none =>
    match mode with
    | .throws e => ⟨[.catFindById id], none, some (catchWrap e)⟩
    | .nullRes => ⟨[.catFindById id], none, some (CustomError "No cat found" 404)⟩
    | .normal =>
      match findCat db id with
      | none => ⟨[.catFindById id], none, some (CustomError "No cat found" 404)⟩
      | some c =>
        ⟨[.catFindById id], some (c, (populateOwner users c).map ownerView), none⟩

/-- `catListGet` (lines 227–238): no validation gate;
`find().populate('owner', 'user_name email')`; `null` → 404 `'No cats found'`
(with an early `return`). -/
def catListGet (db : List CatRecord) (users : List UserRecord)
    (mode : CallMode) : Outcome (List (CatRecord × Option OwnerView)) :=
  match mode with
  | .throws e => ⟨[.catFindAll], none, some (catchWrap e)⟩
  | .nullRes => ⟨[.catFindAll], none, some (CustomError "No cats found" 404)⟩
  | .normal =>
    ⟨[.catFindAll],
     some (db.map (fun c => (c, (populateOwner users c).map ownerView))), none⟩

/-- Lines 258–261 of `catPost`: the body handed to `catModel.create` after the
server-side assignments `req.body.location = res.locals.coords`,
`req.body.owner = user._id`, `req.body.filename = req.file.filename`. -/
def catPostPayload (b : CatBody) (coords : GeoPoint) (userId fname : String) :
    CatBody :=
  {b with location := some coords, owner := some userId, filename := some fname}

/-- The created cat document as returned by `catModel.create` on the payload
(the database assigns `newId`; schema defaults stand in for absent fields). -/
def catOfBody (newId : String) (b : CatBody) : CatRecord :=
  ⟨newId, b.cat_name.getD "", b.weight.getD 0, b.birthdate.getD "",
   b.owner.getD "", b.location.getD ⟨0, 0⟩, b.filename.getD ""⟩

/-- `catPost` (lines 240–273): validation gate; `throw new CustomError('File
not found', 400)` when `req.file` is absent; otherwise overwrite `location`,
`owner` and `filename` with the server-derived values and `create`.  `file`
models `req.file` as the stored upload name. -/
def catPost (errors : List ValidationError) (body : CatBody)
    (file : Option String) (coords : GeoPoint) (userId : String)
    (newId : String) (mode : CreateMode) : Outcome (MsgData CatRecord) :=
  match validationGate errors with
  | some e => ⟨[], none, some (catchWrap e)⟩
  | none =>
    match file with
    | none => ⟨[], none, some (catchWrap (CustomError "File not found" 400))⟩
    | some fname =>
      let payload := catPostPayload body coords userId fname
      match mode with
      | .throws e => ⟨[.catCreate payload], none, some (catchWrap e)⟩
      | .normal =>
        ⟨[.catCreate payload],
         some ⟨"Cat created", catOfBody newId payload⟩, none⟩

/-! ### User handlers (`src/api/controllers/userController.ts`) -/

/-- `userGet` (lines 10–27): validation gate, then
`findById(req.params.id).select('_id user_name email')`; the result is sent
with `res.json` unconditionally — a missing user yields a `null` body, no 404. -/
def userGet (errors : List ValidationError) (id : String)
    (db : List UserRecord) (mode : CallMode) : Outcome (Option UserView) :=
  match validationGate errors with
  | some e => ⟨[], none, some (catchWrap e)⟩
  | none =>
    match mode with
    | .throws e => ⟨[.userFindById id], none, some (catchWrap e)⟩
    | .nullRes => ⟨[.userFindById id], some none, none⟩
    | .normal => ⟨[.userFindById id], some ((findUser db id).map userView), none⟩

/-- `userListGet` (lines 29–40): no validation gate;
`find().select('-password -role')`; on a `null`/`undefined` result the handler
calls `next(new CustomError('No users found', 404))` WITHOUT returning, so
`res.json(users)` still runs and sends the `null` body as well. -/
def userListGet (db : List UserRecord) (mode : CallMode) :
    Outcome (Option (List UserView)) :=
  match mode with
  | .throws e => ⟨[.userFindAll], none, some (catchWrap e)⟩
  | .nullRes =>
    ⟨[.userFindAll], some none, some (CustomError "No users found" 404)⟩
  | .normal => ⟨[.userFindAll], some (some (db.map userView)), none⟩

/-- Lines 57–60 of `userPost`: hash the body's password with
`bcrypt.hashSync(password, bcrypt.genSaltSync(12))`, store it back into the
body, and spread the body with `role: 'user'` into the `create` payload. -/
def userPostCreatePayload (b : UserBody) (seed : String) : NewUser :=
  ⟨b.user_name, b.email, hashSync b.password (genSaltSync 12 seed), "user"⟩

/-- `userPost` (lines 43–74): validation gate, hash the password, force
`role: 'user'`, `userModel.create`, and respond with
`{message: 'User created', data: {_id, user_name, email}}`. -/
def userPost (errors : List ValidationError) (body : UserBody) (seed : String)
    (newId : String) (mode : CreateMode) : Outcome (MsgData UserView) :=
  match validationGate errors with
  | some e => ⟨[], none, some (catchWrap e)⟩
  | none =>
    let payload := userPostCreatePayload body seed
    match mode with
    | .throws e => ⟨[.userCreate payload], none, some (catchWrap e)⟩
    | .normal =>
      ⟨[.userCreate payload],
       some ⟨"User created", ⟨newId, body.user_name, body.email⟩⟩, none⟩

/-- `userPutCurrent` (lines 76–115): validation gate, then
`findByIdAndUpdate(res.locals.user._id, req.body, {new: true})` — the request
body is passed to the update verbatim; `null` → 404 `'Not found'`; otherwise
respond with the `{_id, user_name, email}` projection of the updated record. -/
def userPutCurrent (errors : List ValidationError) (caller : UserRecord)
    (body : UserUpdateBody) (db : List UserRecord) (mode : CallMode) :
    Outcome (MsgData UserView) :=
  match validationGate errors with
  | some e => ⟨[], none, some (catchWrap e)⟩
  | none =>
    match mode with
    | .throws e => ⟨[.userUpdate caller._id body], none, some (catchWrap e)⟩
    | .nullRes =>
      ⟨[.userUpdate caller._id body], none, some (CustomError "Not found" 404)⟩
    | .normal =>
      match findUser db caller._id with
      | none =>
        ⟨[.userUpdate caller._id body], none, some (CustomError "Not found" 404)⟩
      | some u =>
        ⟨[.userUpdate caller._id body],
         some ⟨"User modified", userView (applyUserUpdate u body)⟩, none⟩

set_option linter.unusedVariables false in
/-- `userDeleteCurrent` (lines 117–154).  Two deviations from the other
handlers, both mirrored here: (1) the gate calls `validationResult(req.params)`
— `req.params` carries no validator state, so the result is always empty and
the request-level `errors` are never consulted (were the branch reachable, its
message builder maps every failure to `undefined`, cf.
`renderValidationErrorsVoid`, and the catch would forward the thrown 400
unchanged); (2) the catch block is `next(error)`: the thrown error is
forwarded as-is, not rewritten to 500. -/
def userDeleteCurrent (errors : List ValidationError) (caller : UserRecord)
    (db : List UserRecord) (mode : CallMode) : Outcome (MsgData UserView) :=
  let paramErrors : List ValidationError := []
  match validationGate paramErrors with
  | some e => ⟨[], none, some e⟩
  | none =>
    match mode with
    | .throws e => ⟨[.userDelete caller._id], none, some e⟩
    | .nullRes =>
      ⟨[.userDelete caller._id], none, some (CustomError "User not found" 404)⟩
    | .normal =>
      match findUser db caller._id with
      | none =>
        ⟨[.userDelete caller._id], none, some (CustomError "User not found" 404)⟩
      | some _ =>
        ⟨[.userDelete caller._id],
         some ⟨"User deleted", ⟨caller._id, caller.user_name, caller.email⟩⟩,
         none⟩

/-- `checkToken` (lines 156–168): no gate, no `try`, no database access —
403 when `res.locals.user` is absent, otherwise echo its projection. -/
def checkToken (user : Option UserRecord) : Outcome UserView :=
  match user with
  | none => ⟨[], none, some (CustomError "Token is not valid" 403)⟩
  | some u => ⟨[], some ⟨u._id, u.user_name, u.email⟩, none⟩

/-! ### Shared lemmas -/

theorem validationGate_of_ne_nil (errors : List ValidationError)
    (h : errors ≠ []) :
    validationGate errors =
      some ⟨renderValidationErrors errors, some 400⟩ := by
  cases errors with
  | nil => exact absurd rfl h
  | cons a as => rfl

theorem hashSync_ne (pw salt : String) : hashSync pw salt ≠ pw := by
  intro h
  have hd : (salt ++ "$" ++ pw).data = pw.data := congrArg String.data h
  rw [String.data_append, String.data_append] at hd
  have hl := congrArg List.length hd
  simp [List.length_append] at hl
  omega

theorem compareSync_hashSync (pw salt : String) :
    compareSync pw (hashSync pw salt) = true := by
  rw [compareSync, hashSync]
  simp only [List.isSuffixOf_iff_suffix, String.data_append, List.append_assoc]
  exact List.suffix_append _ _

/-! ### C1 -/

/-- C1 (counterexample): the claim says a request failing field validation
makes the operation fail with a BadRequest error of status 400; in
`catGetByUser`, a failing validation with one error `⟨"Invalid", "id"⟩` is
forwarded with status 500 — the thrown 400 is rewritten by the handler's own
catch block — so the claim as stated is false (the joined message and the
no-database-access part do hold). -/
theorem c1_counterexample :
    (catGetByUser [⟨"Invalid", "id"⟩] "u1" [] .normal).forwarded
        = some ⟨"Invalid: id", some 500⟩ ∧
    (catGetByUser [⟨"Invalid", "id"⟩] "u1" [] .normal).forwarded
        ≠ some ⟨"Invalid: id", some 400⟩ ∧
    (catGetByUser [⟨"Invalid", "id"⟩] "u1" [] .normal).dbOps = [] :=
  ⟨rfl, by decide, rfl⟩

/-- C1 (amended): for each of the eleven handlers that run the validation gate
on the request (`catListGet`, `userListGet` and `checkToken` have no gate, and
`userDeleteCurrent` reads `validationResult(req.params)`, which never carries
the request's failures), a request that fails field validation makes the
operation fail, before any database access and with no response written, with
an error carrying the joined failure string — but with status 500, the
handler's catch block having rewritten the thrown 400. -/
theorem c1_amended (errors : List ValidationError) (h : errors ≠ [])
    (cid i tr bl r seed nid : String) (cdb : List CatRecord)
    (udb : List UserRecord) (cb : CatBody) (ub : UserBody)
    (uu : UserUpdateBody) (caller : UserRecord) (fo : Option String)
    (coords : GeoPoint) (m : CallMode) (cm : CreateMode) :
    catGetByUser errors cid cdb m
      = ⟨[], none, some ⟨renderValidationErrors errors, some 500⟩⟩ ∧
    catGetByBoundingBox errors tr bl cdb m
      = ⟨[], none, some ⟨renderValidationErrors errors, some 500⟩⟩ ∧
    catPutAdmin errors r i cb cdb m
      = ⟨[], none, some ⟨renderValidationErrors errors, some 500⟩⟩ ∧
    catDeleteAdmin errors r i cdb udb m
      = ⟨[], none, some ⟨renderValidationErrors errors, some 500⟩⟩ ∧
    catDelete errors i cdb m
      = ⟨[], none, some ⟨renderValidationErrors errors, some 500⟩⟩ ∧
    catPut errors i cb cdb m
      = ⟨[], none, some ⟨renderValidationErrors errors, some 500⟩⟩ ∧
    catGet errors i cdb udb m
      = ⟨[], none, some ⟨renderValidationErrors errors, some 500⟩⟩ ∧
    catPost errors cb fo coords cid nid cm
      = ⟨[], none, some ⟨renderValidationErrors errors, some 500⟩⟩ ∧
    userGet errors i udb m
      = ⟨[], none, some ⟨renderValidationErrors errors, some 500⟩⟩ ∧
    userPost errors ub seed nid cm
      = ⟨[], none, some ⟨renderValidationErrors errors, some 500⟩⟩ ∧
    userPutCurrent errors caller uu udb m
      = ⟨[], none, some ⟨renderValidationErrors errors, some 500⟩⟩ := by
  cases errors with
  | nil => exact absurd rfl h
  | cons a as =>
    exact ⟨rfl, rfl, rfl, rfl, rfl, rfl, rfl, rfl, rfl, rfl, rfl⟩

/-- C1 (witness): the amended theorem applied at a concrete failing
validation. -/
theorem c1_witness :
    ([⟨"Invalid", "id"⟩] : List ValidationError) ≠ [] ∧
    catGetByUser [⟨"Invalid", "id"⟩] "u1" [] .normal
      = ⟨[], none,
         some ⟨renderValidationErrors [⟨"Invalid", "id"⟩], some 500⟩⟩ :=
  ⟨by decide,
   (c1_amended [⟨"Invalid", "id"⟩] (by decide) "u1" "i" "10,10" "0,0" "admin"
      "s" "n" [] [] ⟨none, none, none, none, none, none⟩ ⟨"a", "b", "c", none⟩
      ⟨none, none, none, none⟩ ⟨"u", "n", "e", "p", "user"⟩ none ⟨0, 0⟩
      .normal .normal).1⟩

/-! ### C2 -/

/-- C2 (counterexample): the claim says EVERY handler's catch block rewrites a
thrown error to status 500; `userDeleteCurrent`'s catch block is
`next(error)`, so an error thrown with status 404 inside its `try` block is
forwarded with its original status 404, not 500. -/
theorem c2_counterexample :
    (userDeleteCurrent [] ⟨"u1", "alice", "a@ex.com", "pw", "user"⟩ []
        (.throws ⟨"boom", some 404⟩)).forwarded = some ⟨"boom", some 404⟩ ∧
    (userDeleteCurrent [] ⟨"u1", "alice", "a@ex.com", "pw", "user"⟩ []
        (.throws ⟨"boom", some 404⟩)).forwarded ≠ some ⟨"boom", some 500⟩ :=
  ⟨rfl, by decide⟩

/-- C2 (amended): in every handler except `userDeleteCurrent`, an error
thrown inside the `try` block (here: a rejection of the awaited database
call) is rewritten by the catch block to an error with the same message and
status 500, regardless of the thrown error's original status;
`userDeleteCurrent`'s catch block forwards the thrown error unchanged
(`checkToken` has no `try` block at all). -/
theorem c2_amended (e : JsError) (cid i tr bl seed nid fname : String)
    (cdb : List CatRecord) (udb : List UserRecord) (cb : CatBody)
    (ub : UserBody) (uu : UserUpdateBody) (caller : UserRecord)
    (coords : GeoPoint) :
    (catGetByUser [] cid cdb (.throws e)).forwarded
        = some ⟨e.message, some 500⟩ ∧
    (catGetByBoundingBox [] tr bl cdb (.throws e)).forwarded
        = some ⟨e.message, some 500⟩ ∧
    (catPutAdmin [] "admin" i cb cdb (.throws e)).forwarded
        = some ⟨e.message, some 500⟩ ∧
    (catDeleteAdmin [] "admin" i cdb udb (.throws e)).forwarded
        = some ⟨e.message, some 500⟩ ∧
    (catDelete [] i cdb (.throws e)).forwarded
        = some ⟨e.message, some 500⟩ ∧
    (catPut [] i cb cdb (.throws e)).forwarded
        = some ⟨e.message, some 500⟩ ∧
    (catGet [] i cdb udb (.throws e)).forwarded
        = some ⟨e.message, some 500⟩ ∧
    (catListGet cdb udb (.throws e)).forwarded
        = some ⟨e.message, some 500⟩ ∧
    (catPost [] cb (some fname) coords cid nid (.throws e)).forwarded
        = some ⟨e.message, some 500⟩ ∧
    (userGet [] i udb (.throws e)).forwarded
        = some ⟨e.message, some 500⟩ ∧
    (userListGet udb (.throws e)).forwarded
        = some ⟨e.message, some 500⟩ ∧
    (userPost [] ub seed nid (.throws e)).forwarded
        = some ⟨e.message, some 500⟩ ∧
    (userPutCurrent [] caller uu udb (.throws e)).forwarded
        = some ⟨e.message, some 500⟩ ∧
    (userDeleteCurrent [] caller udb (.throws e)).forwarded = some e :=
  ⟨rfl, rfl, rfl, rfl, rfl, rfl, rfl, rfl, rfl, rfl, rfl, rfl, rfl, rfl⟩

/-! ### C3 -/

/-- C3 (counterexample): the claim says every handler renders every validation
failure as one `"<msg>: <param>"` segment per failing field; in
`userDeleteCurrent`, a request whose validation failed on field `id` produces
no error message at all — the handler reads `validationResult(req.params)`,
which never carries the request's failures, and proceeds to the delete —
while the claimed rendering of that failure would be `"Invalid: id"`. -/
theorem c3_counterexample :
    (userDeleteCurrent [⟨"Invalid", "id"⟩]
        ⟨"u1", "alice", "a@ex.com", "pw", "user"⟩
        [⟨"u1", "alice", "a@ex.com", "pw", "user"⟩] .normal).forwarded
      = none ∧
    renderValidationErrors [⟨"Invalid", "id"⟩] = "Invalid: id" :=
  ⟨rfl, by decide⟩

/-- C3 (amended): in each of the eleven handlers that run the validation gate
on the request, the failure message forwarded on a validation failure is built
by rendering each failing field as `"<msg>: <param>"` and joining the segments
with `", "`, one segment per failing field in the validator's order (the
accompanying status is 500 after the catch rewrite, cf. C1);
`userDeleteCurrent` renders nothing — its gate reads `req.params` and never
fires, and its mapper's arrow function has a block body with no `return`, so
were it reached each segment would be empty. -/
theorem c3_amended (errors : List ValidationError) (h : errors ≠ [])
    (cid i tr bl r seed nid : String) (cdb : List CatRecord)
    (udb : List UserRecord) (cb : CatBody) (ub : UserBody)
    (uu : UserUpdateBody) (caller : UserRecord) (fo : Option String)
    (coords : GeoPoint) (m : CallMode) (cm : CreateMode) :
    (catGetByUser errors cid cdb m).forwarded.map JsError.message
      = some (String.intercalate ", "
          (errors.map (fun er => er.msg ++ ": " ++ er.param))) ∧
    (catGetByBoundingBox errors tr bl cdb m).forwarded.map JsError.message
      = some (String.intercalate ", "
          (errors.map (fun er => er.msg ++ ": " ++ er.param))) ∧
    (catPutAdmin errors r i cb cdb m).forwarded.map JsError.message
      = some (String.intercalate ", "
          (errors.map (fun er => er.msg ++ ": " ++ er.param))) ∧
    (catDeleteAdmin errors r i cdb udb m).forwarded.map JsError.message
      = some (String.intercalate ", "
          (errors.map (fun er => er.msg ++ ": " ++ er.param))) ∧
    (catDelete errors i cdb m).forwarded.map JsError.message
      = some (String.intercalate ", "
          (errors.map (fun er => er.msg ++ ": " ++ er.param))) ∧
    (catPut errors i cb cdb m).forwarded.map JsError.message
      = some (String.intercalate ", "
          (errors.map (fun er => er.msg ++ ": " ++ er.param))) ∧
    (catGet errors i cdb udb m).forwarded.map JsError.message
      = some (String.intercalate ", "
          (errors.map (fun er => er.msg ++ ": " ++ er.param))) ∧
    (catPost errors cb fo coords cid nid cm).forwarded.map JsError.message
      = some (String.intercalate ", "
          (errors.map (fun er => er.msg ++ ": " ++ er.param))) ∧
    (userGet errors i udb m).forwarded.map JsError.message
      = some (String.intercalate ", "
          (errors.map (fun er => er.msg ++ ": " ++ er.param))) ∧
    (userPost errors ub seed nid cm).forwarded.map JsError.message
      = some (String.intercalate ", "
          (errors.map (fun er => er.msg ++ ": " ++ er.param))) ∧
    (userPutCurrent errors caller uu udb m).forwarded.map JsError.message
      = some (String.intercalate ", "
          (errors.map (fun er => er.msg ++ ": " ++ er.param))) := by
  cases errors with
  | nil => exact absurd rfl h
  | cons a as =>
    exact ⟨rfl, rfl, rfl, rfl, rfl, rfl, rfl, rfl, rfl, rfl, rfl⟩

/-- C3 (witness): the amended theorem applied at a concrete two-field
failure, the fields rendered in order. -/
theorem c3_witness :
    ([⟨"Invalid", "id"⟩, ⟨"Required", "name"⟩] : List ValidationError)
      ≠ [] ∧
    (catGetByUser [⟨"Invalid", "id"⟩, ⟨"Required", "name"⟩] "u1" []
        .normal).forwarded.map JsError.message
      = some (String.intercalate ", "
          (([⟨"Invalid", "id"⟩, ⟨"Required", "name"⟩] :
              List ValidationError).map
            (fun er => er.msg ++ ": " ++ er.param))) :=
  ⟨by decide,
   (c3_amended [⟨"Invalid", "id"⟩, ⟨"Required", "name"⟩] (by decide) "u1" "i"
      "10,10" "0,0" "admin" "s" "n" [] []
      ⟨none, none, none, none, none, none⟩ ⟨"a", "b", "c", none⟩
      ⟨none, none, none, none⟩ ⟨"u", "n", "e", "p", "user"⟩ none ⟨0, 0⟩
      .normal .normal).1⟩

/-! ### C4 -/

/-- C4 (counterexample): the claim says no operation other than creation
stores a role taken from the request body; `userPutCurrent` passes `req.body`
verbatim to `findByIdAndUpdate`, so updating the current user (stored role
`"user"`) with body `{role: "admin"}` issues an update carrying the client's
role and the stored record ends up with role `"admin"`. -/
theorem c4_counterexample :
    (userPutCurrent [] ⟨"u1", "alice", "a@ex.com", "hash", "user"⟩
        ⟨none, none, none, some "admin"⟩
        [⟨"u1", "alice", "a@ex.com", "hash", "user"⟩] .normal).dbOps
      = [.userUpdate "u1" ⟨none, none, none, some "admin"⟩] ∧
    applyUserUpdate ⟨"u1", "alice", "a@ex.com", "hash", "user"⟩
        ⟨none, none, none, some "admin"⟩
      = ⟨"u1", "alice", "a@ex.com", "hash", "admin"⟩ :=
  ⟨by decide, by decide⟩

/-- C4 (amended): creation does force the role — the payload `userPost` hands
to `create` has role `"user"` whatever role the body supplies — but the role
field IS client-settable through `userPutCurrent`: the request body is passed
verbatim to the update, and a role present in the body overwrites the stored
one. -/
theorem c4_amended (ub : UserBody) (seed nid : String) (cm : CreateMode)
    (caller u : UserRecord) (uu : UserUpdateBody) (udb : List UserRecord)
    (m : CallMode) :
    (userPostCreatePayload ub seed).role = "user" ∧
    (userPost [] ub seed nid cm).dbOps
      = [.userCreate (userPostCreatePayload ub seed)] ∧
    (userPutCurrent [] caller uu udb m).dbOps
      = [.userUpdate caller._id uu] ∧
    (applyUserUpdate u uu).role = uu.role.getD u.role := by
  refine ⟨rfl, ?_, ?_, rfl⟩
  · cases cm <;> rfl
  · cases m with
    | throws e => rfl
    | nullRes => rfl
    | normal =>
      cases hf : findUser udb caller._id with
      | none => simp [userPutCurrent, validationGate, hf]
      | some u2 => simp [userPutCurrent, validationGate, hf]

/-! ### C5 -/

/-- The axis-aligned rectangle bounded by (0,0) and (10,10), stated
independently of the handler's polygon construction. -/
def withinRect_0_0_10_10 (p : GeoPoint) : Bool :=
  decide (0 ≤ p.lat) && decide (p.lat ≤ 10) &&
  decide (0 ≤ p.lng) && decide (p.lng ≤ 10)

/-- C5: each coordinate component of `topRight` and `bottomLeft` is parsed as
an integer (fractional precision discarded), the two corners are passed to
the rectangle helper, and the query with `topRight = "10,10"`,
`bottomLeft = "0,0"` returns exactly the records whose location lies within
the axis-aligned rectangle bounded by (0,0) and (10,10) — the polygon built
from those strings is the closed rectangle with corners (0,0) and (10,10). -/
theorem c5_bbox_query (db : List CatRecord) :
    (catGetByBoundingBox [] "10,10" "0,0" db .normal).response
      = some (db.filter (fun c => withinRect_0_0_10_10 c.location)) ∧
    bboxQueryPoly "10,10" "0,0"
      = [⟨some 0, some 0⟩, ⟨some 0, some 10⟩, ⟨some 10, some 10⟩,
         ⟨some 10, some 0⟩, ⟨some 0, some 0⟩] ∧
    parseIntJS "3.9" = some 3 ∧ parseIntJS "-3.9" = some (-3) :=
  ⟨rfl, by decide, by decide, by decide⟩

/-! ### C6 -/

/-- C6 (counterexample): the claim says a cat-creation request with no file
fails with status 400; the thrown `CustomError('File not found', 400)` is
caught by `catPost`'s own catch block and forwarded with status 500
(no record is inserted, as claimed). -/
theorem c6_counterexample :
    (catPost [] ⟨none, none, none, none, none, none⟩ none ⟨0, 0⟩ "u1" "c1"
        .normal).forwarded = some ⟨"File not found", some 500⟩ ∧
    (catPost [] ⟨none, none, none, none, none, none⟩ none ⟨0, 0⟩ "u1" "c1"
        .normal).forwarded ≠ some ⟨"File not found", some 400⟩ ∧
    (catPost [] ⟨none, none, none, none, none, none⟩ none ⟨0, 0⟩ "u1" "c1"
        .normal).dbOps = [] :=
  ⟨rfl, by decide, rfl⟩

/-- C6 (amended): a cat-creation request with no uploaded file fails with the
message `'File not found'` but status 500 — the thrown 400 is rewritten by the
catch block — and no record is inserted; when a file is present, the inserted
payload's `location`, `owner` and `filename` are the server-derived
coordinates, the caller's identity and the stored upload name, never the
client body's values. -/
theorem c6_amended (cb : CatBody) (coords : GeoPoint)
    (uid nid fname : String) (cm : CreateMode) :
    catPost [] cb none coords uid nid cm
      = ⟨[], none, some ⟨"File not found", some 500⟩⟩ ∧
    (catPost [] cb (some fname) coords uid nid cm).dbOps
      = [.catCreate (catPostPayload cb coords uid fname)] ∧
    (catPostPayload cb coords uid fname).location = some coords ∧
    (catPostPayload cb coords uid fname).owner = some uid ∧
    (catPostPayload cb coords uid fname).filename = some fname := by
  refine ⟨rfl, ?_, rfl, rfl, rfl⟩
  cases cm <;> rfl

/-! ### C7 -/

/-- C7: a successful user creation responds with
`{message: 'User created', data: {_id, user_name, email}}` only (the
response type carries no password field), and the persisted password is the
salted hash with cost factor 12 of the client's input: it differs from the
plaintext and verifies against it via the hashing function's check. -/
theorem c7_hash_and_shape (ub : UserBody) (seed nid : String) :
    (userPost [] ub seed nid .normal).response
      = some ⟨"User created", ⟨nid, ub.user_name, ub.email⟩⟩ ∧
    (userPost [] ub seed nid .normal).dbOps
      = [.userCreate (userPostCreatePayload ub seed)] ∧
    (userPostCreatePayload ub seed).password
      = hashSync ub.password (genSaltSync 12 seed) ∧
    (userPostCreatePayload ub seed).password ≠ ub.password ∧
    compareSync ub.password (userPostCreatePayload ub seed).password
      = true :=
  ⟨rfl, rfl, rfl, hashSync_ne _ _, compareSync_hashSync _ _⟩

/-! ### C8 -/

/-- C8: an admin-only cat update or delete request by a caller whose role is
not `"admin"`, passing validation, is a silent no-op: no response is written,
no error is forwarded, and no database operation is issued. -/
theorem c8_silent_noop (role : String) (h : role ≠ "admin") (i : String)
    (cb : CatBody) (cdb : List CatRecord) (udb : List UserRecord)
    (m : CallMode) :
    catPutAdmin [] role i cb cdb m = ⟨[], none, none⟩ ∧
    catDeleteAdmin [] role i cdb udb m = ⟨[], none, none⟩ := by
  constructor
  · simp [catPutAdmin, validationGate, if_neg h]
  · simp [catDeleteAdmin, validationGate, if_neg h]

/-- C8 (witness): the theorem applied at a concrete non-admin caller. -/
theorem c8_witness :
    ("user" : String) ≠ "admin" ∧
    catPutAdmin [] "user" "c1" ⟨none, none, none, none, none, none⟩ []
        .normal = ⟨[], none, none⟩ ∧
    catDeleteAdmin [] "user" "c1" [] [] .normal = ⟨[], none, none⟩ :=
  ⟨by decide,
   (c8_silent_noop "user" (by decide) "c1" ⟨none, none, none, none, none, none⟩
      [] [] .normal).1,
   (c8_silent_noop "user" (by decide) "c1" ⟨none, none, none, none, none, none⟩
      [] [] .normal).2⟩

/-! ### C9 -/

/-- C9: `userPutCurrent` hands the request body verbatim to the update — the
issued operation carries the body unchanged, and when the body holds a
password the stored record's password is that client-supplied plaintext —
whereas the creation path stores the salted hash, not the plaintext. -/
theorem c9_verbatim_update (caller u : UserRecord) (uu : UserUpdateBody) (p : String)
    (hp : uu.password = some p) (udb : List UserRecord) (m : CallMode)
    (ub : UserBody) (seed : String) :
    (userPutCurrent [] caller uu udb m).dbOps
      = [.userUpdate caller._id uu] ∧
    (applyUserUpdate u uu).password = p ∧
    (userPostCreatePayload ub seed).password
      = hashSync ub.password (genSaltSync 12 seed) := by
  refine ⟨?_, ?_, rfl⟩
  · cases m with
    | throws e => rfl
    | nullRes => rfl
    | normal =>
      cases hf : findUser udb caller._id with
      | none => simp [userPutCurrent, validationGate, hf]
      | some u2 => simp [userPutCurrent, validationGate, hf]
  · simp [applyUserUpdate, hp]

/-- C9 (witness): the theorem applied at a concrete body carrying a
password. -/
theorem c9_witness :
    (⟨none, none, some "hunter2", none⟩ : UserUpdateBody).password
      = some "hunter2" ∧
    (userPutCurrent [] ⟨"u1", "alice", "a@ex.com", "old", "user"⟩
        ⟨none, none, some "hunter2", none⟩ [] .normal).dbOps
      = [.userUpdate "u1" ⟨none, none, some "hunter2", none⟩] ∧
    (applyUserUpdate ⟨"u1", "alice", "a@ex.com", "old", "user"⟩
        ⟨none, none, some "hunter2", none⟩).password = "hunter2" :=
  ⟨rfl,
   (c9_verbatim_update ⟨"u1", "alice", "a@ex.com", "old", "user"⟩
      ⟨"u1", "alice", "a@ex.com", "old", "user"⟩
      ⟨none, none, some "hunter2", none⟩ "hunter2" rfl [] .normal
      ⟨"a", "b", "c", none⟩ "s").1,
   (c9_verbatim_update ⟨"u1", "alice", "a@ex.com", "old", "user"⟩
      ⟨"u1", "alice", "a@ex.com", "old", "user"⟩
      ⟨none, none, some "hunter2", none⟩ "hunter2" rfl [] .normal
      ⟨"a", "b", "c", none⟩ "s").2.1⟩

/-! ### C10 -/

/-- C10: when `userListGet`'s query yields a `null`/`undefined` result, the
handler forwards `CustomError('No users found', 404)` to the error middleware
and — the `next` call not being followed by a `return` — still sends that
`null` result as the JSON response: both fields of the outcome are set for
the same request. -/
theorem c10_both_paths (udb : List UserRecord) :
    userListGet udb .nullRes
      = ⟨[.userFindAll], some none, some ⟨"No users found", some 404⟩⟩ :=
  rfl
